import Mathlib

/-!
Verification of the Laundry-Care-System order lifecycle.

This file shallowly embeds the order-lifecycle operations of the
repository (src/utils/cancel_order_util.py, src/services/worker_service.py,
src/services/customer_service.py, src/services/admin_service.py,
src/models.py) and proves or refutes the frozen claims about them.

Modelling conventions:
- timestamps are integers (seconds since epoch, UTC).  The Python code
  normalizes naive datetimes to UTC before comparing; here every stored
  timestamp is already the normalized UTC instant, so the normalization
  steps are identity.
- Python floats (price, fee) are modelled as rationals.
- The SQLAlchemy session is a `Store` record threaded explicitly.  A
  Python `raise` before `db.session.commit()` leaves the database
  untouched; we model each operation as `Except (Err × Store) (Store × β)`
  where an error carries the store as it stands at the raise point, so
  "a failed call changes nothing" is a provable property, not a
  modelling artifact.
- `Query.filter_by(...).first()` is `List.find?` with the same predicate;
  mutating the returned ORM object then committing is `updateFirst` with
  the same predicate.
-/

/-- `OrderStatus` enum from src/models.py. -/
inductive OrderStatus where
  | created
  | claimed
  | picked_up
  | in_progress
  | delivered
  | completed
  | cancelled
deriving DecidableEq, Repr

/-- `UserRole` enum from src/models.py. -/
inductive UserRole where
  | customer
  | worker
  | admin
deriving DecidableEq, Repr

/-- The columns of the `User` model used by the lifecycle operations. -/
structure Usr where
  id : Nat
  name : String
  role : UserRole
deriving DecidableEq, Repr

/-- The columns of the `Customer` model used by the lifecycle operations:
`assigned_worker_id` and the related address ids (in relationship order). -/
structure Customer where
  id : Nat
  assigned_worker_id : Option Nat
  addresses : List Nat
deriving DecidableEq, Repr

/-- The columns of the `Order` model from src/models.py that the lifecycle
operations read or write. -/
structure Order where
  id : Nat
  customer_id : Nat
  worker_id : Option Nat
  pickup_time : Int
  delivery_time : Int
  status : OrderStatus
  price : ℚ
  cancellation_fee : ℚ
  created_by : Nat
  address_id : Option Nat
deriving DecidableEq, Repr

/-- A row of the `OrderStatusHistory` model from src/models.py. -/
structure OrderStatusHistory where
  order_id : Nat
  status : OrderStatus
  status_changed_by : Nat
  changed_at : Int
deriving DecidableEq, Repr

/-- The database state visible to the lifecycle operations. -/
structure Store where
  users : List Usr
  customers : List Customer
  orders : List Order
  history : List OrderStatusHistory
deriving DecidableEq, Repr

/-- The exception kinds of src/utils/exceptions_util.py raised by the
lifecycle operations: `NotFoundError(message)` and
`ValidationError(message, field)`. -/
inductive Err where
  | notFound (msg : String)
  | validation (msg : String) (fld : Option String)
deriving DecidableEq, Repr

/-- Modelled from the spec: `core/constants.py` is not part of src/; the
spec says the cancellation path "reads one global constant"
`constants.fee_percentage` regardless of role.  We model the missing
module as a record holding that single global constant. -/
structure Constants where
  fee_percentage : ℚ
deriving DecidableEq, Repr

/-- Mutating the first ORM object matching a `filter_by` predicate and
committing: replace the first element of the list satisfying `p` by its
image under `f`. -/
def updateFirst (p : α → Bool) (f : α → α) : List α → List α
  | [] => []
  | x :: xs => if p x then f x :: xs else x :: updateFirst p f xs

/-- `User.query.get(user_id)`. -/
def findUser (s : Store) (user_id : Nat) : Option Usr :=
  s.users.find? (fun u => u.id == user_id)

/-- The `filter_by` predicate built in `cancel_order`
(src/utils/cancel_order_util.py lines 24-27): always `id == order_id`,
and additionally `customer_id == user_id` when the role is customer. -/
def cancelFilter (user_id order_id : Nat) (role : UserRole) (o : Order) : Bool :=
  o.id == order_id && (role != UserRole.customer || o.customer_id == user_id)

/-- One hour, the hard-coded grace window of `cancel_order`, in seconds. -/
def graceWindow : Int := 3600

/-- `cancel_order(user_id, order_id, role)` from
src/utils/cancel_order_util.py.  `now` is the value of
`datetime.now(timezone.utc)`; stored pickup times are already UTC
instants, so the `astimezone` normalization is the identity here.
Returns the new store and the computed cancellation fee. -/
def cancel_order (c : Constants) (now : Int) (s : Store)
    (user_id order_id : Nat) (role : UserRole) :
    Except (Err × Store) (Store × ℚ) :=
  match findUser s user_id with
  | none => .error (.notFound "User not found", s)
  | some _user =>
    match s.orders.find? (cancelFilter user_id order_id role) with
    | none => .error (.notFound "Order not found", s)
    | some order =>
      if order.pickup_time < now then
        .error (.validation "Cannot cancel order after pickup time"
          (some "pickup_time"), s)
      else
        let fee : ℚ :=
          if order.pickup_time - now ≤ graceWindow then
            (c.fee_percentage / 100) * order.price
          else 0
        let s' := { s with
          orders := updateFirst (cancelFilter user_id order_id role)
            (fun o => { o with status := .cancelled, cancellation_fee := fee })
            s.orders }
        .ok (s', fee)

/-- The `filter_by` predicate of `claim_order`
(src/services/worker_service.py line 44): `id == order_id` and
`worker_id` IS NULL.  No status condition. -/
def claimFilter (order_id : Nat) (o : Order) : Bool :=
  o.id == order_id && o.worker_id == none

/-- `claim_order(worker_id, order_id)` from src/services/worker_service.py.
Returns the new store and the claimed order's id. -/
def claim_order (s : Store) (worker_id order_id : Nat) :
    Except (Err × Store) (Store × Nat) :=
  match s.orders.find? (claimFilter order_id) with
  | none => .error (.notFound "Order not available for claiming", s)
  | some order =>
    let s' := { s with
      orders := updateFirst (claimFilter order_id)
        (fun o => { o with worker_id := some worker_id, status := .claimed })
        s.orders }
    .ok (s', order.id)

/-- Python's `str.lower()`: lowercase each character. -/
def strLower (s : String) : String := ⟨s.data.map Char.toLower⟩

/-- `OrderStatus[status.lower()]`: enum lookup by (lowercased) member
name; `none` models the `KeyError` branch. -/
def statusFromName (nm : String) : Option OrderStatus :=
  if nm = "created" then some .created
  else if nm = "claimed" then some .claimed
  else if nm = "picked_up" then some .picked_up
  else if nm = "in_progress" then some .in_progress
  else if nm = "delivered" then some .delivered
  else if nm = "completed" then some .completed
  else if nm = "cancelled" then some .cancelled
  else none

/-- The `filter_by` predicate of `update_order_status`
(src/services/worker_service.py line 69): `id == order_id` and
`worker_id == worker_id`.  No condition on the current status. -/
def assignedFilter (worker_id order_id : Nat) (o : Order) : Bool :=
  o.id == order_id && o.worker_id == some worker_id

/-- `update_order_status(worker_id, order_id, status)` from
src/services/worker_service.py.  Returns the new store and the status
written. -/
def update_order_status (s : Store) (worker_id order_id : Nat)
    (status : String) : Except (Err × Store) (Store × OrderStatus) :=
  match s.orders.find? (assignedFilter worker_id order_id) with
  | none => .error (.notFound "Order not found or not assigned to this worker", s)
  | some _order =>
    match statusFromName (strLower status) with
    | none => .error (.validation "Invalid status" (some "status"), s)
    | some new_status =>
      let s' := { s with
        orders := updateFirst (assignedFilter worker_id order_id)
          (fun o => { o with status := new_status })
          s.orders }
      .ok (s', new_status)

/-- SQLAlchemy integer-primary-key autoincrement for a fresh `Order` id. -/
def freshOrderId (s : Store) : Nat :=
  s.orders.foldr (fun o m => max (o.id + 1) m) 1

namespace CustomerService

/-- `create_order_for_customer` from src/services/customer_service.py.
`now` is `datetime.now(timezone.utc)`; the timestamps arrive already
UTC-normalized (the naive-datetime `replace(tzinfo=utc)` step is the
identity here).  Returns the new store and the new order's id. -/
def create_order_for_customer (now : Int) (s : Store) (customer_id : Nat)
    (pickup_time delivery_time : Int) (price : ℚ) (address_id : Nat) :
    Except (Err × Store) (Store × Nat) :=
  if pickup_time ≤ now then
    .error (.validation "Pickup time must be in the future"
      (some "pickup_time"), s)
  else if delivery_time ≤ pickup_time then
    .error (.validation "Delivery time must be after pickup time"
      (some "delivery_time"), s)
  else
    let order : Order := {
      id := freshOrderId s
      customer_id := customer_id
      worker_id := none
      pickup_time := pickup_time
      delivery_time := delivery_time
      status := .created
      price := price
      cancellation_fee := 0
      created_by := customer_id
      address_id := some address_id }
    .ok ({ s with orders := s.orders ++ [order] }, order.id)

end CustomerService

namespace WorkerService

/-- `create_order_for_customer` from src/services/worker_service.py
(worker creates an order for an assigned customer).  Returns the new
store and the new order's id. -/
def create_order_for_customer (s : Store) (worker_id customer_id : Nat)
    (pickup_time delivery_time : Int) (price : ℚ) :
    Except (Err × Store) (Store × Nat) :=
  if delivery_time ≤ pickup_time then
    .error (.validation "Delivery time must be after pickup time" none, s)
  else
    match s.customers.find? (fun cu =>
        cu.id == customer_id && cu.assigned_worker_id == some worker_id) with
    | none => .error (.validation "Customer not assigned to this worker" none, s)
    | some customer =>
      let order : Order := {
        id := freshOrderId s
        customer_id := customer_id
        worker_id := some worker_id
        pickup_time := pickup_time
        delivery_time := delivery_time
        status := .created
        price := price
        cancellation_fee := 0
        created_by := worker_id
        address_id := customer.addresses.head? }
      .ok ({ s with orders := s.orders ++ [order] }, order.id)

end WorkerService

namespace AdminService

/-- `create_order_for_customer` from src/services/admin_service.py.
Returns the new store and the new order's id. -/
def create_order_for_customer (s : Store) (customer_id : Nat)
    (worker_id : Option Nat) (pickup_time delivery_time : Int) (price : ℚ)
    (created_by : Nat) (address_id : Option Nat) :
    Except (Err × Store) (Store × Nat) :=
  if delivery_time ≤ pickup_time then
    .error (.validation "Delivery time must be after pickup time" none, s)
  else
    let order : Order := {
      id := freshOrderId s
      customer_id := customer_id
      worker_id := worker_id
      pickup_time := pickup_time
      delivery_time := delivery_time
      status := .created
      price := price
      cancellation_fee := 0
      created_by := created_by
      address_id := address_id }
    .ok ({ s with orders := s.orders ++ [order] }, order.id)

end AdminService

/-! ## Helper lemmas -/

theorem mem_updateFirst_of_find? {p : α → Bool} {f : α → α} {l : List α}
    {a : α} (h : l.find? p = some a) : f a ∈ updateFirst p f l := by
  induction l with
  | nil => simp [List.find?] at h
  | cons x xs ih =>
    by_cases hp : p x
    · rw [List.find?_cons_of_pos _ hp] at h
      cases h
      simp [updateFirst, hp]
    · rw [List.find?_cons_of_neg _ hp] at h
      simp [updateFirst, hp, ih h]

theorem forall₂_updateFirst {R : α → α → Prop} {p : α → Bool} {f : α → α}
    (hrefl : ∀ x, R x x) (hf : ∀ x, p x = true → R x (f x)) (l : List α) :
    List.Forall₂ R l (updateFirst p f l) := by
  induction l with
  | nil => exact List.Forall₂.nil
  | cons x xs ih =>
    by_cases hp : p x
    · simpa [updateFirst, hp] using
        List.Forall₂.cons (hf x hp) (List.forall₂_same.mpr (fun y _ => hrefl y))
    · simpa [updateFirst, hp] using List.Forall₂.cons (hrefl x) ih

/-! ## C1: cancellation is rejected strictly after pickup time, for every role -/

/-- C1: whenever the acting user resolves and the order resolves under the
role-scoped filter, and the current instant is strictly past the order's
pickup time, `cancel_order` raises
`ValidationError("Cannot cancel order after pickup time", field="pickup_time")`
and this holds for every role — no cancellation, fee or otherwise, once
pickup time has passed. -/
theorem C1_no_cancel_after_pickup (c : Constants) (now : Int) (s : Store)
    (uid oid : Nat) (role : UserRole) (u : Usr) (o : Order)
    (hu : findUser s uid = some u)
    (ho : s.orders.find? (cancelFilter uid oid role) = some o)
    (hp : o.pickup_time < now) :
    cancel_order c now s uid oid role =
      .error (.validation "Cannot cancel order after pickup time"
        (some "pickup_time"), s) := by
  unfold cancel_order
  rw [hu, ho]
  simp [hp]

def c1User : Usr := { id := 10, name := "Ali", role := .customer }

def c1Order : Order :=
  { id := 1, customer_id := 10, worker_id := none, pickup_time := 100,
    delivery_time := 200, status := .created, price := 50,
    cancellation_fee := 0, created_by := 10, address_id := some 7 }

def c1Store : Store :=
  { users := [c1User], customers := [], orders := [c1Order], history := [] }

/-- Witness for C1 at a concrete store: user 10, order 1 with pickup time
100, current instant 101, customer role. -/
theorem C1_no_cancel_after_pickup_witness :
    cancel_order ⟨20⟩ 101 c1Store 10 1 .customer =
      .error (.validation "Cannot cancel order after pickup time"
        (some "pickup_time"), c1Store) :=
  C1_no_cancel_after_pickup ⟨20⟩ 101 c1Store 10 1 .customer c1User c1Order
    (by decide) (by decide) (by decide)

/-! ## C2: cancellation fee computation and bounds -/

/-- C2: when cancellation passes the pickup-time cutoff, the fee returned
equals `fee_percentage / 100 * price` if the remaining time to pickup is
at most the one-hour grace window and `0` otherwise; and under
`0 ≤ price`, `0 ≤ fee_percentage ≤ 100` the fee is nonnegative and at
most the order's price. -/
theorem C2_cancellation_fee (c : Constants) (now : Int) (s : Store)
    (uid oid : Nat) (role : UserRole) (u : Usr) (o : Order) (s' : Store)
    (f : ℚ)
    (hu : findUser s uid = some u)
    (ho : s.orders.find? (cancelFilter uid oid role) = some o)
    (hret : cancel_order c now s uid oid role = .ok (s', f)) :
    (o.pickup_time - now ≤ graceWindow → f = c.fee_percentage / 100 * o.price)
    ∧ (graceWindow < o.pickup_time - now → f = 0)
    ∧ (0 ≤ o.price → 0 ≤ c.fee_percentage → c.fee_percentage ≤ 100 →
        0 ≤ f ∧ f ≤ o.price) := by
  unfold cancel_order at hret
  rw [hu, ho] at hret
  by_cases hcut : o.pickup_time < now
  · simp [hcut] at hret
  · simp only [hcut, if_false] at hret
    by_cases hwin : o.pickup_time - now ≤ graceWindow
    · simp only [hwin, if_true, Except.ok.injEq, Prod.mk.injEq] at hret
      refine ⟨fun _ => hret.2.symm, fun hgt => absurd hwin (not_le.mpr hgt),
        fun hpr hf0 hf100 => ?_⟩
      have hfe : f = c.fee_percentage / 100 * o.price := hret.2.symm
      constructor
      · rw [hfe]
        exact mul_nonneg (div_nonneg hf0 (by norm_num)) hpr
      · rw [hfe]
        refine mul_le_of_le_one_left hpr ?_
        rw [div_le_one (by norm_num : (0:ℚ) < 100)]
        exact hf100
    · simp only [hwin, if_false, Except.ok.injEq, Prod.mk.injEq] at hret
      exact ⟨fun hle => absurd hle hwin, fun _ => hret.2.symm,
        fun hpr _ _ => by rw [← hret.2]; exact ⟨le_refl 0, hpr⟩⟩

def c2Store : Store :=
  { users := [c1User],
    customers := [],
    orders := [{ id := 1, customer_id := 10, worker_id := none,
                 pickup_time := 1800, delivery_time := 9000,
                 status := .created, price := 50, cancellation_fee := 0,
                 created_by := 10, address_id := some 7 }],
    history := [] }

def c2Store' : Store :=
  { users := [c1User],
    customers := [],
    orders := [{ id := 1, customer_id := 10, worker_id := none,
                 pickup_time := 1800, delivery_time := 9000,
                 status := .cancelled, price := 50, cancellation_fee := 10,
                 created_by := 10, address_id := some 7 }],
    history := [] }

/-- Witness for C2 at a concrete store: fee_percentage 20, price 50,
pickup 1800 seconds away (inside the one-hour grace window), giving
fee 10 = 20/100 * 50, and 0 ≤ 10 ≤ 50. -/
theorem C2_cancellation_fee_witness :
    ((1800 : Int) - 0 ≤ graceWindow →
      (10 : ℚ) = (20 : ℚ) / 100 * 50)
    ∧ (graceWindow < (1800 : Int) - 0 → (10 : ℚ) = 0)
    ∧ ((0 : ℚ) ≤ 50 → (0 : ℚ) ≤ 20 → (20 : ℚ) ≤ 100 →
        (0 : ℚ) ≤ 10 ∧ (10 : ℚ) ≤ 50) :=
  C2_cancellation_fee ⟨20⟩ 0 c2Store 10 1 .customer c1User
    { id := 1, customer_id := 10, worker_id := none,
      pickup_time := 1800, delivery_time := 9000, status := .created,
      price := 50, cancellation_fee := 0, created_by := 10,
      address_id := some 7 }
    c2Store' 10 (by decide) (by decide)
    (by simp [cancel_order, findUser, c2Store, c2Store', c1User, cancelFilter,
          graceWindow, updateFirst]
        norm_num)

/-! ## C3: terminal statuses are not actually enforced (code bug) -/

def c3Order : Order :=
  { id := 1, customer_id := 10, worker_id := some 2, pickup_time := 7200,
    delivery_time := 9000, status := .completed, price := 50,
    cancellation_fee := 0, created_by := 10, address_id := some 7 }

def c3Store : Store :=
  { users := [c1User], customers := [], orders := [c3Order], history := [] }

/-- C3 (refuting the claim on the code): on an order whose status is the
terminal `completed`, `update_order_status` happily succeeds and rewrites
the status, and `cancel_order` (pickup time still in the future) happily
cancels it — neither operation checks the current status, so a terminal
order does not reject further status-changing operations. -/
theorem C3_terminal_not_enforced :
    c3Order.status = OrderStatus.completed
    ∧ update_order_status c3Store 2 1 "picked_up" =
        .ok ({ c3Store with orders := [{ c3Order with status := .picked_up }] },
          .picked_up)
    ∧ cancel_order ⟨20⟩ 0 c3Store 10 1 .customer =
        .ok ({ c3Store with orders := [{ c3Order with status := .cancelled, cancellation_fee := 0 }] }, 0) := by
  refine ⟨rfl, rfl, ?_⟩
  simp [cancel_order, findUser, c3Store, c3Order, c1User, cancelFilter,
    graceWindow, updateFirst]

/-! ## C4: claim_order does not require status `created` (corrected) -/

def c4Order : Order :=
  { id := 1, customer_id := 10, worker_id := none, pickup_time := 7200,
    delivery_time := 9000, status := .cancelled, price := 50,
    cancellation_fee := 0, created_by := 10, address_id := some 7 }

def c4Store : Store :=
  { users := [c1User], customers := [], orders := [c4Order], history := [] }

/-- C4 counterexample: an order whose `worker_id` is unset but whose
status is `cancelled` (not `created`) is nevertheless claimed
successfully — `claim_order` filters only on `worker_id IS NULL`,
contradicting the claim that success requires status `created`. -/
theorem C4_claim_ignores_status_counterexample :
    c4Order.worker_id = none ∧ c4Order.status = OrderStatus.cancelled
    ∧ claim_order c4Store 5 1 =
        .ok ({ c4Store with orders := [{ c4Order with worker_id := some 5, status := .claimed }] }, 1) :=
  ⟨rfl, rfl, rfl⟩

/-- `claimFilter` unfolded to a proposition. -/
theorem claimFilter_eq_true {oid : Nat} {o : Order} :
    claimFilter oid o = true ↔ o.id = oid ∧ o.worker_id = none := by
  simp [claimFilter]

/-- C4 amended: `claim_order` succeeds exactly when there exists an order
with the given id whose `worker_id` is unset (its status is irrelevant);
on success the claimed order now carries the claiming worker's id and
status `claimed`; in every other case it raises
`NotFoundError("Order not available for claiming")` — a single error
value, so a missing order and an already-claimed order are
indistinguishable to the caller — and the store is unchanged. -/
theorem C4_claim_order_spec (s : Store) (w oid : Nat) :
    ((∃ s' r, claim_order s w oid = .ok (s', r)) ↔
      ∃ o ∈ s.orders, o.id = oid ∧ o.worker_id = none)
    ∧ (∀ e t, claim_order s w oid = .error (e, t) →
        e = .notFound "Order not available for claiming" ∧ t = s)
    ∧ (∀ s' r, claim_order s w oid = .ok (s', r) →
        ∃ o ∈ s'.orders, o.id = oid ∧ o.worker_id = some w
          ∧ o.status = .claimed) := by
  cases hf : s.orders.find? (claimFilter oid) with
  | none =>
    have heq : claim_order s w oid =
        .error (.notFound "Order not available for claiming", s) := by
      unfold claim_order
      rw [hf]
    rw [List.find?_eq_none] at hf
    refine ⟨⟨?_, ?_⟩, ?_, ?_⟩
    · rintro ⟨s', r, h⟩
      rw [heq] at h
      cases h
    · rintro ⟨o, ho, hid, hw⟩
      exact absurd (claimFilter_eq_true.mpr ⟨hid, hw⟩) (hf o ho)
    · intro e t h
      rw [heq] at h
      injection h with h'
      injection h' with h1 h2
      exact ⟨h1.symm, h2.symm⟩
    · intro s' r h
      rw [heq] at h
      cases h
  | some o =>
    have heq : claim_order s w oid =
        .ok ({ s with orders := updateFirst (claimFilter oid) (fun x => { x with worker_id := some w, status := .claimed }) s.orders }, o.id) := by
      unfold claim_order
      rw [hf]
    have hmem := List.mem_of_find?_eq_some hf
    have hflt := claimFilter_eq_true.mp (List.find?_some hf)
    refine ⟨⟨fun _ => ⟨o, hmem, hflt⟩, fun _ => ⟨_, _, heq⟩⟩, ?_, ?_⟩
    · intro e t h
      rw [heq] at h
      cases h
    · intro s' r h
      rw [heq] at h
      injection h with h'
      injection h' with h1 h2
      refine ⟨{ o with worker_id := some w, status := .claimed }, ?_,
        hflt.1, rfl, rfl⟩
      rw [← h1]
      exact mem_updateFirst_of_find? hf

def c4wOrder : Order :=
  { id := 2, customer_id := 11, worker_id := none, pickup_time := 7200,
    delivery_time := 9000, status := .created, price := 30,
    cancellation_fee := 0, created_by := 11, address_id := some 8 }

def c4wStore : Store :=
  { users := [], customers := [], orders := [c4wOrder], history := [] }

def c4wStore' : Store :=
  { users := [], customers := [],
    orders := [{ c4wOrder with worker_id := some 7, status := .claimed }],
    history := [] }

/-- Witness for C4 at a concrete store: worker 7 claims order 2, which
afterwards carries worker 7 and status `claimed`. -/
theorem C4_claim_order_spec_witness :
    ∃ o ∈ c4wStore'.orders, o.id = 2 ∧ o.worker_id = some 7
      ∧ o.status = OrderStatus.claimed :=
  (C4_claim_order_spec c4wStore 7 2).2.2 c4wStore' 2 (by rfl)

/-! ## C5: cancellation order resolution is role-scoped -/

/-- `cancelFilter` for the customer role unfolded to a proposition. -/
theorem cancelFilter_customer {uid oid : Nat} {o : Order} :
    cancelFilter uid oid .customer o = true ↔
      o.id = oid ∧ o.customer_id = uid := by
  simp [cancelFilter]

/-- C5: with the acting user resolved, (a) in the customer role
`cancel_order` raises the single error value
`NotFoundError("Order not found")` whenever no order carries the given id
together with `customer_id = user_id` — covering both "no such order" and
"order owned by someone else" with the same observable outcome, so the two
are indistinguishable to the caller; (b) in the admin role any existing
order id resolves: the call never fails with that not-found error. -/
theorem C5_cancel_scoping (c : Constants) (now : Int) (s : Store)
    (uid oid : Nat) (u : Usr) (hu : findUser s uid = some u) :
    ((∀ o ∈ s.orders, ¬(o.id = oid ∧ o.customer_id = uid)) →
      cancel_order c now s uid oid .customer =
        .error (.notFound "Order not found", s))
    ∧ ((∃ o ∈ s.orders, o.id = oid) →
      ∀ t, cancel_order c now s uid oid .admin ≠
        .error (.notFound "Order not found", t)) := by
  constructor
  · intro hnone
    have hf : s.orders.find? (cancelFilter uid oid .customer) = none := by
      rw [List.find?_eq_none]
      intro o ho hp
      exact hnone o ho (cancelFilter_customer.mp hp)
    unfold cancel_order
    rw [hu, hf]
  · intro hex t
    obtain ⟨o, ho, hid⟩ := hex
    have hsome : (s.orders.find? (cancelFilter uid oid .admin)).isSome := by
      rw [List.find?_isSome]
      exact ⟨o, ho, by simp [cancelFilter, hid]⟩
    obtain ⟨o', hf⟩ := Option.isSome_iff_exists.mp hsome
    unfold cancel_order
    rw [hu, hf]
    by_cases hc : o'.pickup_time < now
    · simp [hc]
    · simp [hc]

def c5Order : Order :=
  { id := 1, customer_id := 99, worker_id := none, pickup_time := 7200,
    delivery_time := 9000, status := .created, price := 50,
    cancellation_fee := 0, created_by := 99, address_id := some 7 }

def c5Store : Store :=
  { users := [c1User], customers := [], orders := [c5Order], history := [] }

/-- Witness for C5 at a concrete store: order 1 belongs to customer 99, so
customer 10 cancelling it gets `NotFoundError("Order not found")` exactly
as if it did not exist. -/
theorem C5_cancel_scoping_witness :
    cancel_order ⟨20⟩ 0 c5Store 10 1 .customer =
      .error (.notFound "Order not found", c5Store) :=
  (C5_cancel_scoping ⟨20⟩ 0 c5Store 10 1 c1User (by decide)).1 (by decide)

/-! ## C6: forward-only status sequencing is not actually enforced (code bug) -/

def c6Order : Order :=
  { id := 1, customer_id := 10, worker_id := some 2, pickup_time := 7200,
    delivery_time := 9000, status := .claimed, price := 50,
    cancellation_fee := 0, created_by := 10, address_id := some 7 }

def c6Store : Store :=
  { users := [c1User], customers := [], orders := [c6Order], history := [] }

/-- C6 (refuting the claim on the code): from status `claimed`,
`update_order_status` accepts the backward step to `created` and even
accepts `cancelled` directly — it validates only that the string names an
enum member, never that the step is forward or that `cancelled` is
reserved to the cancellation path. -/
theorem C6_forward_sequencing_not_enforced :
    c6Order.status = OrderStatus.claimed
    ∧ update_order_status c6Store 2 1 "created" =
        .ok ({ c6Store with orders := [{ c6Order with status := .created }] },
          .created)
    ∧ update_order_status c6Store 2 1 "cancelled" =
        .ok ({ c6Store with orders := [{ c6Order with status := .cancelled }] },
          .cancelled) :=
  ⟨rfl, rfl, rfl⟩

/-! ## C7: every creation path validates delivery_time > pickup_time -/

/-- C7: each of the three order-creation entry points — customer, worker
and admin — raises a `ValidationError` when `delivery_time ≤ pickup_time`
and leaves the store unchanged; and whenever any of them succeeds, the
store gains exactly one order, which is in status `created` and satisfies
`pickup_time < delivery_time`. -/
theorem C7_creation_validates_times (now : Int) (s : Store)
    (cid wid created_by addr : Nat) (wopt aid : Option Nat)
    (pickup delivery : Int) (price : ℚ) :
    (delivery ≤ pickup →
      (∃ m f, CustomerService.create_order_for_customer now s cid pickup delivery price addr = .error (.validation m f, s))
      ∧ (∃ m f, WorkerService.create_order_for_customer s wid cid pickup delivery price = .error (.validation m f, s))
      ∧ (∃ m f, AdminService.create_order_for_customer s cid wopt pickup delivery price created_by aid = .error (.validation m f, s)))
    ∧ (∀ s' r, CustomerService.create_order_for_customer now s cid pickup delivery price addr = .ok (s', r) →
        ∃ o, s'.orders = s.orders ++ [o] ∧ o.status = .created ∧ o.pickup_time < o.delivery_time)
    ∧ (∀ s' r, WorkerService.create_order_for_customer s wid cid pickup delivery price = .ok (s', r) →
        ∃ o, s'.orders = s.orders ++ [o] ∧ o.status = .created ∧ o.pickup_time < o.delivery_time)
    ∧ (∀ s' r, AdminService.create_order_for_customer s cid wopt pickup delivery price created_by aid = .ok (s', r) →
        ∃ o, s'.orders = s.orders ++ [o] ∧ o.status = .created ∧ o.pickup_time < o.delivery_time) := by
  refine ⟨fun hdp => ⟨?_, ?_, ?_⟩, ?_, ?_, ?_⟩
  · unfold CustomerService.create_order_for_customer
    by_cases hpk : pickup ≤ now
    · exact ⟨_, _, by rw [if_pos hpk]⟩
    · exact ⟨_, _, by rw [if_neg hpk, if_pos hdp]⟩
  · unfold WorkerService.create_order_for_customer
    exact ⟨_, _, by rw [if_pos hdp]⟩
  · unfold AdminService.create_order_for_customer
    exact ⟨_, _, by rw [if_pos hdp]⟩
  · intro s' r h
    unfold CustomerService.create_order_for_customer at h
    split_ifs at h with h1 h2
    simp only [Except.ok.injEq, Prod.mk.injEq] at h
    exact ⟨_, by rw [← h.1], rfl, not_le.mp h2⟩
  · intro s' r h
    unfold WorkerService.create_order_for_customer at h
    split_ifs at h with h1
    cases hcu : s.customers.find? (fun cu => cu.id == cid && cu.assigned_worker_id == some wid) with
    | none =>
      rw [hcu] at h
      cases h
    | some customer =>
      rw [hcu] at h
      simp only [Except.ok.injEq, Prod.mk.injEq] at h
      exact ⟨_, by rw [← h.1], rfl, not_le.mp h1⟩
  · intro s' r h
    unfold AdminService.create_order_for_customer at h
    split_ifs at h with h1
    simp only [Except.ok.injEq, Prod.mk.injEq] at h
    exact ⟨_, by rw [← h.1], rfl, not_le.mp h1⟩

def c7Store : Store :=
  { users := [], customers := [], orders := [], history := [] }

/-- Witness for C7 at a concrete input: with delivery time 100 ≤ pickup
time 200, all three creation paths return a `ValidationError` and the
untouched store. -/
theorem C7_creation_validates_times_witness :
    (∃ m f, CustomerService.create_order_for_customer 0 c7Store 10 200 100 50 7 = .error (.validation m f, c7Store))
    ∧ (∃ m f, WorkerService.create_order_for_customer c7Store 2 10 200 100 50 = .error (.validation m f, c7Store))
    ∧ (∃ m f, AdminService.create_order_for_customer c7Store 10 (some 2) 200 100 50 3 (some 7) = .error (.validation m f, c7Store)) :=
  (C7_creation_validates_times 0 c7Store 10 2 3 7 (some 2) (some 7) 200 100 50).1
    (by decide)

/-! ## C8: no OrderStatusHistory row is ever written (code bug) -/

def c8Order : Order :=
  { id := 1, customer_id := 10, worker_id := none, pickup_time := 7200,
    delivery_time := 9000, status := .created, price := 50,
    cancellation_fee := 0, created_by := 10, address_id := some 7 }

def c8Store : Store :=
  { users := [c1User], customers := [], orders := [c8Order], history := [] }

/-- C8 (refuting the claim on the code): successful cancellation, claim
and status update each mutate the order's status yet append no
`OrderStatusHistory` row — the resulting store's history is exactly the
(empty) history of the input store in all three cases. -/
theorem C8_no_history_row_written :
    cancel_order ⟨20⟩ 0 c8Store 10 1 .customer =
      .ok ({ c8Store with orders := [{ c8Order with status := .cancelled, cancellation_fee := 0 }] }, 0)
    ∧ claim_order c8Store 2 1 =
      .ok ({ c8Store with orders := [{ c8Order with worker_id := some 2, status := .claimed }] }, 1)
    ∧ update_order_status { c8Store with orders := [{ c8Order with worker_id := some 2 }] } 2 1 "delivered" =
      .ok ({ c8Store with orders := [{ c8Order with worker_id := some 2, status := .delivered }] }, .delivered)
    ∧ ({ c8Store with orders := [{ c8Order with status := .cancelled, cancellation_fee := 0 }] } : Store).history = c8Store.history :=
  ⟨rfl, rfl, rfl, rfl⟩

/-! ## C9: failed operations leave the store exactly as it was -/

/-- C9: whenever `cancel_order`, `claim_order` or `update_order_status`
raises (returns an error), the store carried at the raise point is the
input store unchanged — every validation precedes the first mutation. -/
theorem C9_failed_calls_leave_store_unchanged (c : Constants) (now : Int)
    (s : Store) (uid oid wid : Nat) (role : UserRole) (st : String) :
    (∀ e t, cancel_order c now s uid oid role = .error (e, t) → t = s)
    ∧ (∀ e t, claim_order s wid oid = .error (e, t) → t = s)
    ∧ (∀ e t, update_order_status s wid oid st = .error (e, t) → t = s) := by
  refine ⟨?_, ?_, ?_⟩
  · intro e t h
    unfold cancel_order at h
    split at h
    · injection h with h'
      injection h' with h1 h2
      exact h2.symm
    · split at h
      · injection h with h'
        injection h' with h1 h2
        exact h2.symm
      · split at h
        · injection h with h'
          injection h' with h1 h2
          exact h2.symm
        · simp at h
  · intro e t h
    unfold claim_order at h
    split at h
    · injection h with h'
      injection h' with h1 h2
      exact h2.symm
    · simp at h
  · intro e t h
    unfold update_order_status at h
    split at h
    · injection h with h'
      injection h' with h1 h2
      exact h2.symm
    · split at h
      · injection h with h'
        injection h' with h1 h2
        exact h2.symm
      · simp at h

def c9Store : Store :=
  { users := [], customers := [], orders := [], history := [] }

/-- Witness for C9 at a concrete input: cancelling against the empty
store fails with `NotFoundError("User not found")` and the carried store
is the input store. -/
theorem C9_failed_calls_witness : c9Store = c9Store :=
  (C9_failed_calls_leave_store_unchanged ⟨20⟩ 0 c9Store 1 1 1 .admin "created").1
    (.notFound "User not found") c9Store (by rfl)

/-! ## C10: successful cancellation only touches status and fee of the target -/

/-- `cancelFilter` forces the matched order to carry the requested id. -/
theorem cancelFilter_id {uid oid : Nat} {role : UserRole} {o : Order}
    (h : cancelFilter uid oid role o = true) : o.id = oid := by
  simp [cancelFilter] at h
  exact h.1

/-- C10: a successful `cancel_order` leaves the users, customers and
history tables untouched, and rewrites the order list pointwise: every
order is either exactly its old self, or is the targeted order (carrying
the requested id) changed only in its `status` (to `cancelled`) and
`cancellation_fee` (to the returned fee) — `customer_id`, `worker_id`,
`pickup_time`, `delivery_time`, `price`, `created_by` and `address_id`
are all preserved. -/
theorem C10_cancel_modifies_only_status_and_fee (c : Constants) (now : Int)
    (s : Store) (uid oid : Nat) (role : UserRole) (s' : Store) (f : ℚ)
    (h : cancel_order c now s uid oid role = .ok (s', f)) :
    s'.users = s.users ∧ s'.customers = s.customers
    ∧ s'.history = s.history
    ∧ List.Forall₂ (fun o o' : Order => o' = o ∨ (o.id = oid ∧ o' = { o with status := .cancelled, cancellation_fee := f })) s.orders s'.orders := by
  unfold cancel_order at h
  split at h
  · cases h
  · split at h
    · cases h
    · rename_i o hf
      split at h
      · cases h
      · simp only [Except.ok.injEq, Prod.mk.injEq] at h
        obtain ⟨hs, hfee⟩ := h
        subst hfee
        rw [← hs]
        refine ⟨rfl, rfl, rfl, ?_⟩
        apply forall₂_updateFirst
        · exact fun x => Or.inl rfl
        · exact fun x hx => Or.inr ⟨cancelFilter_id hx, rfl⟩

def c10Order : Order :=
  { id := 1, customer_id := 10, worker_id := some 2, pickup_time := 7200,
    delivery_time := 9000, status := .claimed, price := 50,
    cancellation_fee := 0, created_by := 10, address_id := some 7 }

def c10Store : Store :=
  { users := [c1User], customers := [], orders := [c10Order], history := [] }

def c10Store' : Store :=
  { users := [c1User], customers := [],
    orders := [{ c10Order with status := .cancelled, cancellation_fee := 0 }],
    history := [] }

/-- Witness for C10 at a concrete store: cancelling order 1 (pickup
beyond the grace window, fee 0) preserves every table and every other
field of the order. -/
theorem C10_cancel_modifies_only_status_and_fee_witness :
    c10Store'.users = c10Store.users ∧ c10Store'.customers = c10Store.customers
    ∧ c10Store'.history = c10Store.history
    ∧ List.Forall₂ (fun o o' : Order => o' = o ∨ (o.id = 1 ∧ o' = { o with status := .cancelled, cancellation_fee := 0 })) c10Store.orders c10Store'.orders :=
  C10_cancel_modifies_only_status_and_fee ⟨20⟩ 0 c10Store 10 1 .customer
    c10Store' 0 (by rfl)
